import Mathlib

set_option maxRecDepth 10000

/-!
Verification of the authenticated reverse proxy (`app/routers/proxy.py`).

The development shallowly embeds the proxy's pure request/response logic:

* the data model (`User`, `MinerInstance`) from `app/models/database.py` and
  `app/models/enums.py`;
* the access gate `_resolve_port` (ownership/role check, running check);
* the HTTP relay `proxy_http` (credential chain, hop-by-hop filtering,
  upstream request construction, HTML rewriting and shim injection, the
  proxy-session cookie);
* the WebSocket relay `proxy_websocket` (pre-accept gate, close codes) and
  its two forwarding directions.

External collaborators are abstracted exactly at the boundaries the code
uses them: JWT verification (`app/services/auth.py::verify_token`, which
wraps the external `jose` library plus a DB lookup) is a parameter
`verify : String → Option User`; the SQLAlchemy instance table is a
`List MinerInstance` (`id` is the primary key, so `scalar_one_or_none`
corresponds to `List.find?`); the pooled `httpx` client is a parameter
`upstream : UpstreamRequest → Except UpstreamFailure UpstreamResponse`.
Header/query/cookie collections are association lists; bodies are modelled
as decoded text (`List Char`), binary WebSocket payloads as `List Nat`.
-/

/-- `UserRole` from `app/models/enums.py`. -/
inductive UserRole where
  | admin
  | user
deriving DecidableEq

/-- `InstanceState` from `app/models/enums.py`. -/
inductive InstanceState where
  | stopped
  | running
  | stopping
deriving DecidableEq

/-- The fields of `User` (`app/models/database.py`) that the proxy reads. -/
structure User where
  id : String
  role : UserRole
deriving DecidableEq

/-- `User.is_admin` from `app/models/database.py`. -/
def User.is_admin (u : User) : Bool :=
  u.role == UserRole.admin

/-- The fields of `MinerInstance` (`app/models/database.py`) that the proxy
reads: primary key `id`, owner `user_id`, lifecycle `status`, host `port`
(nullable). -/
structure MinerInstance where
  id : String
  user_id : String
  status : InstanceState
  port : Option Nat
deriving DecidableEq

/-- A raised `fastapi.HTTPException(status_code, detail)`. -/
structure HTTPException where
  status_code : Nat
  detail : String
deriving DecidableEq

/-- `_resolve_port` from `app/routers/proxy.py` (lines 61-83): verify
ownership and return the container's host port.  Admins select by id only;
regular users additionally filter on `user_id`.  `scalar_one_or_none` on the
primary-key-filtered query is `List.find?`. -/
def resolve_port (instances : List MinerInstance) (current_user : User)
    (instance_id : String) : Except HTTPException Nat :=
  let found :=
    if current_user.is_admin then
      instances.find? (fun i => i.id == instance_id)
    else
      instances.find? (fun i => i.id == instance_id && i.user_id == current_user.id)
  match found with
  | none => .error ⟨404, "Instance not found"⟩
  | some inst =>
    if inst.status != InstanceState.running then .error ⟨503, "Instance is not running"⟩
    else
      match inst.port with
      | none => .error ⟨503, "Instance is not running"⟩
      | some port => .ok port

/-- ASCII lowercasing of a string (header names and the hop-by-hop set are
ASCII; mirrors Python's `str.lower` on them). -/
def lowerStr (s : String) : String :=
  String.mk (s.data.map Char.toLower)

/-- Python `s.startswith(p)`. -/
def py_startsWith (s p : String) : Bool :=
  p.data.isPrefixOf s.data

/-- Python `s[n:]`. -/
def py_drop (s : String) (n : Nat) : String :=
  String.mk (s.data.drop n)

/-- Starlette/httpx case-insensitive header lookup with default `""`
(`headers.get(k, "")`). -/
def header_get (headers : List (String × String)) (k : String) : String :=
  match headers.find? (fun kv => lowerStr kv.1 == lowerStr k) with
  | some kv => kv.2
  | none => ""

/-- Exact-key lookup with default `""` (`query_params.get(k, "")`,
`cookies.get(k, "")`). -/
def dict_get (l : List (String × String)) (k : String) : String :=
  match l.find? (fun kv => kv.1 == k) with
  | some kv => kv.2
  | none => ""

/-- Exact-key lookup returning `none` when absent (`d.get(k)`). -/
def dict_opt (l : List (String × String)) (k : String) : Option String :=
  (l.find? (fun kv => kv.1 == k)).map (fun kv => kv.2)

/-- Python dict assignment `d[k] = v`: replace the value in place if the key
exists, else append. -/
def dict_set (l : List (String × String)) (k v : String) : List (String × String) :=
  if (l.find? (fun kv => kv.1 == k)).isSome then
    l.map (fun kv => if kv.1 == k then (k, v) else kv)
  else
    l ++ [(k, v)]

/-- `"&".join(f"{k}={v}" for k, v in ps)`. -/
def qs_join : List (String × String) → String
  | [] => ""
  | [kv] => kv.1 ++ "=" ++ kv.2
  | kv :: rest => kv.1 ++ "=" ++ kv.2 ++ "&" ++ qs_join rest

/-- Python substring test `pat in s` over character lists. -/
def listContains (pat : List Char) : List Char → Bool
  | [] => pat.isEmpty
  | c :: rest => pat.isPrefixOf (c :: rest) || listContains pat rest

/-- Number of positions at which `pat` occurs in the list. -/
def countOcc (pat : List Char) : List Char → Nat
  | [] => 0
  | c :: rest => (if pat.isPrefixOf (c :: rest) then 1 else 0) + countOcc pat rest

/-- `HOP_BY_HOP` from `app/routers/proxy.py` (lines 39-42): headers that
must not be forwarded. -/
def HOP_BY_HOP : List String :=
  ["connection", "keep-alive", "proxy-authenticate", "proxy-authorization",
   "te", "trailers", "transfer-encoding", "upgrade", "host"]

/-- First pattern of `prs` (pattern, replacement) matching at the head of
`s`; regex alternation tries alternatives left to right.  Empty patterns are
never produced by the proxy's regexes and are rejected. -/
def find_at (prs : List (List Char × List Char)) (s : List Char) : Option (List Char × List Char) :=
  prs.find? (fun pr => !pr.1.isEmpty && pr.1.isPrefixOf s)

/-- Left-to-right, non-overlapping literal substitution: the scan semantics
of `re.sub` for an alternation of literal patterns (replacements are not
rescanned).  Fuel-indexed for structural recursion; each step consumes at
least one character, so `s.length` fuel suffices. -/
def multi_sub (prs : List (List Char × List Char)) : Nat → List Char → List Char
  | _, [] => []
  | 0, s => s
  | fuel + 1, c :: rest =>
    match find_at prs (c :: rest) with
    | some pr => pr.2 ++ multi_sub prs fuel ((c :: rest).drop pr.1.length)
    | none => c :: multi_sub prs fuel rest

/-- `re.sub` over literal-alternation patterns. -/
def re_sub (prs : List (List Char × List Char)) (s : List Char) : List Char :=
  multi_sub prs s.length s

/-- `ui_base` from `proxy_http` (line 144): the instance's proxy base path. -/
def ui_base (instance_id : String) : String :=
  "/api/instances/" ++ instance_id ++ "/ui"

/-- Patterns/replacements of `re.sub(r'(href|src|action)="/', rf'\1="{ui_base}/', html)`
(line 165). -/
def attr_pats_dq (instance_id : String) : List (List Char × List Char) :=
  [(("href=\"/").data, ("href=\"" ++ ui_base instance_id ++ "/").data),
   (("src=\"/").data, ("src=\"" ++ ui_base instance_id ++ "/").data),
   (("action=\"/").data, ("action=\"" ++ ui_base instance_id ++ "/").data)]

/-- Patterns/replacements of `re.sub(r"(href|src|action)='/", ...)` (line 166). -/
def attr_pats_sq (instance_id : String) : List (List Char × List Char) :=
  [(("href=\x27/").data, ("href=\x27" ++ ui_base instance_id ++ "/").data),
   (("src=\x27/").data, ("src=\x27" ++ ui_base instance_id ++ "/").data),
   (("action=\x27/").data, ("action=\x27" ++ ui_base instance_id ++ "/").data)]

/-- Pattern/replacement of `re.sub(r'url\(/', rf'url({ui_base}/', html)` (line 167). -/
def url_pats (instance_id : String) : List (List Char × List Char) :=
  [(("url(/").data, ("url(" ++ ui_base instance_id ++ "/").data)]

/-- The client-side compatibility shim (lines 172-204), the Python f-string
with `ui_base` interpolated and `\x7b\x7b`/`\x7d\x7d` unescaped to single braces. -/
def shim (instance_id : String) : String :=
  "<script>\n(function()\x7b\n  var base=\x27" ++ ui_base instance_id ++
  "\x27;\n  function rw(u)\x7b\n    if(typeof u===\x27string\x27&&u.startsWith(\x27/\x27)&&!u.startsWith(base))return base+u;\n    return u;\n  \x7d\n" ++
  "  // Rewrite HTTP fetch\n  var _f=window.fetch;\n  window.fetch=function(u,o)\x7breturn _f(rw(u),o);\x7d;\n" ++
  "  // Rewrite XHR\n  var _o=XMLHttpRequest.prototype.open;\n  XMLHttpRequest.prototype.open=function(m,u)\x7b\n    arguments[1]=rw(u);return _o.apply(this,arguments);\n  \x7d;\n" ++
  "  // Rewrite WebSocket (Socket.IO uses absolute wss:// URLs from same host)\n  var _WS=window.WebSocket;\n  function PatchedWS(url,protos)\x7b\n    if(typeof url===\x27string\x27)\x7b\n      try\x7b\n        var u=new URL(url);\n        if(u.hostname===location.hostname&&!u.pathname.startsWith(base))\x7b\n          u.pathname=base+u.pathname;url=u.toString();\n        \x7d\n      \x7dcatch(e)\x7b\x7d\n    \x7d\n    return protos!==undefined?new _WS(url,protos):new _WS(url);\n  \x7d\n" ++
  "  PatchedWS.prototype=_WS.prototype;\n  [\x27CONNECTING\x27,\x27OPEN\x27,\x27CLOSING\x27,\x27CLOSED\x27].forEach(function(k)\x7bPatchedWS[k]=_WS[k];\x7d);\n  window.WebSocket=PatchedWS;\n\x7d)();\n</script>"

/-- The shim as a character list. -/
def shim_chars (instance_id : String) : List Char :=
  (shim instance_id).data

/-- The literal `<head` (both the regex's fixed part and the substring
check on line 208). -/
def head_chars : List Char :=
  ("<head").data

/-- Length of a match of the regex `<head([^>]*)>` anchored at the start of
`s`, if any: the fixed `<head`, then the maximal run of non-`>` characters,
then `>` (there is a match exactly when some `>` follows). -/
def match_head_at (s : List Char) : Option Nat :=
  if head_chars.isPrefixOf s then
    match (s.drop 5).findIdx? (fun c => c == '>') with
    | some k => some (5 + k + 1)
    | none => none
  else none

/-- `re.sub(r'<head([^>]*)>', lambda m: m.group(0) + shim, html, count=1)`
(line 207): insert `sh` right after the leftmost match, if any. -/
def inject_once (sh : List Char) : List Char → List Char
  | [] => []
  | c :: rest =>
    match match_head_at (c :: rest) with
    | some n => (c :: rest).take n ++ sh ++ (c :: rest).drop n
    | none => c :: inject_once sh rest

/-- Lines 207-209: attempt the injection, then prepend the shim when the
resulting document does not contain `<head`. -/
def inject_phase (sh : List Char) (s : List Char) : List Char :=
  let h1 := inject_once sh s
  if listContains head_chars h1 then h1 else sh ++ h1

/-- The three link-rewriting passes of lines 165-167, in source order. -/
def rewrite_links (instance_id : String) (html : List Char) : List Char :=
  re_sub (url_pats instance_id)
    (re_sub (attr_pats_sq instance_id)
      (re_sub (attr_pats_dq instance_id) html))

/-- The full HTML transformation of lines 162-210: link rewriting followed
by shim injection. -/
def rewrite_html (instance_id : String) (html : List Char) : List Char :=
  inject_phase (shim_chars instance_id) (rewrite_links instance_id html)

/-- One HTTP request as the relay sees it (Starlette `Request`): method,
headers, query parameters, cookies, fully-read body (modelled as decoded
text). -/
structure HttpRequest where
  method : String
  headers : List (String × String)
  query_params : List (String × String)
  cookies : List (String × String)
  body : List Char
deriving DecidableEq

/-- The outbound request handed to the pooled client (`client.stream(...)`,
lines 147-152). -/
structure UpstreamRequest where
  method : String
  url : String
  headers : List (String × String)
  content : List Char
deriving DecidableEq

/-- An upstream HTTP response (status, headers, fully-read body). -/
structure UpstreamResponse where
  status_code : Nat
  headers : List (String × String)
  body : List Char
deriving DecidableEq

/-- The two upstream transport failures the relay distinguishes
(`httpx.ConnectError`, `httpx.TimeoutException`, lines 233-236). -/
inductive UpstreamFailure where
  | connectError
  | timeout
deriving DecidableEq

/-- The arguments of `response.set_cookie(...)` (lines 222-230). -/
structure SetCookie where
  key : String
  value : String
  httponly : Bool
  secure : Bool
  samesite : String
  path : String
  max_age : Nat
deriving DecidableEq

/-- The response the relay hands back on the success path. -/
structure RelayResponse where
  status_code : Nat
  headers : List (String × String)
  body : List Char
  set_cookie : Option SetCookie
deriving DecidableEq

/-- Outcome of one `proxy_http` invocation: the early 401 `JSONResponse`
(`{"detail": detail}` with the given status), a raised `HTTPException`, or
a built response. -/
inductive ProxyOutcome where
  | authFail (status : Nat) (detail : String)
  | httpError (e : HTTPException)
  | ok (resp : RelayResponse)
deriving DecidableEq

/-- Result of one `proxy_http` invocation together with the list of
upstream requests it issued (the instrumentation that makes "no upstream
I/O" provable). -/
structure ProxyResult where
  outcome : ProxyOutcome
  upstream_calls : List UpstreamRequest
deriving DecidableEq

/-- Lines 102-113 of `proxy_http`: resolve the credential and the
`token_from_url` flag.  The `Authorization` header is consulted first; when
it carries the `Bearer ` scheme its remainder is taken (even if empty),
otherwise the `token` query parameter (flagging token-from-url when
non-empty), otherwise the `proxy_token_<instance_id>` cookie. -/
def credential_of (request : HttpRequest) (instance_id : String) : String × Bool :=
  let cookie_name := "proxy_token_" ++ instance_id
  let auth_header := header_get request.headers "Authorization"
  if py_startsWith auth_header "Bearer " then
    (py_drop auth_header 7, false)
  else
    let q := dict_get request.query_params "token"
    if q != "" then (q, true)
    else (dict_get request.cookies cookie_name, false)

/-- Line 130 with lines 127-132: the upstream URL
`http://127.0.0.1:{port}/{path}` carrying the query string minus `token`. -/
def target_url_of (port : Nat) (path : String) (request : HttpRequest) : String :=
  let qs := qs_join (request.query_params.filter (fun kv => kv.1 != "token"))
  "http://127.0.0.1:" ++ toString port ++ "/" ++ path ++
    (if qs == "" then "" else "?" ++ qs)

/-- Lines 134-138: request headers minus the hop-by-hop set
(case-insensitively), then `host` set to the upstream authority.  (`host`
itself is in the hop-by-hop set, so the dict assignment is an append.) -/
def forward_headers_of (request : HttpRequest) (port : Nat) : List (String × String) :=
  (request.headers.filter (fun kv => !(HOP_BY_HOP.contains (lowerStr kv.1))))
    ++ [("host", "127.0.0.1:" ++ toString port)]

/-- Lines 140-152: the upstream request issued by `proxy_http`. -/
def upstream_request_of (port : Nat) (path : String) (request : HttpRequest) :
    UpstreamRequest :=
  { method := request.method
    url := target_url_of port path request
    headers := forward_headers_of request port
    content := request.body }

/-- `proxy_http` from `app/routers/proxy.py` (lines 92-236).  `verify` is
`verify_token` (external JWT decode + user lookup, returning `none` where
the original raises `HTTPException(401)`); `upstream` is the pooled-client
exchange.  Duplicate-free association lists stand in for the (de-duplicated)
header/query dicts. -/
def proxy_http (verify : String → Option User) (instances : List MinerInstance)
    (upstream : UpstreamRequest → Except UpstreamFailure UpstreamResponse)
    (instance_id : String) (path : String) (request : HttpRequest) : ProxyResult :=
  let cookie_name := "proxy_token_" ++ instance_id
  let (jwt_token, token_from_url) := credential_of request instance_id
  if jwt_token = "" then
    { outcome := .authFail 401 "Not authenticated", upstream_calls := [] }
  else
    match verify jwt_token with
    | none => { outcome := .authFail 401 "Not authenticated", upstream_calls := [] }
    | some current_user =>
      match resolve_port instances current_user instance_id with
      | .error e => { outcome := .httpError e, upstream_calls := [] }
      | .ok port =>
        let call := upstream_request_of port path request
        match upstream call with
        | .error .connectError =>
          { outcome := .httpError ⟨502, "Container not reachable"⟩, upstream_calls := [call] }
        | .error .timeout =>
          { outcome := .httpError ⟨504, "Container timed out"⟩, upstream_calls := [call] }
        | .ok up =>
          let response_headers := up.headers.filter
            (fun kv => !(HOP_BY_HOP.contains (lowerStr kv.1)) && lowerStr kv.1 != "content-length")
          let content_type := header_get up.headers "content-type"
          let is_html := listContains ("text/html").data content_type.data
          let content := if is_html then rewrite_html instance_id up.body else up.body
          let response_headers :=
            if is_html then dict_set response_headers "content-type" "text/html; charset=utf-8"
            else response_headers
          let resp : RelayResponse :=
            { status_code := up.status_code
              headers := response_headers
              body := content
              set_cookie :=
                if token_from_url then
                  some { key := cookie_name
                         value := jwt_token
                         httponly := true
                         secure := true
                         samesite := "lax"
                         path := "/api/instances/" ++ instance_id ++ "/ui"
                         max_age := 3600 }
                else none }
          { outcome := .ok resp, upstream_calls := [call] }

/-- The parts of a WebSocket handshake request the relay reads: query
parameters and cookies. -/
structure WsRequest where
  query_params : List (String × String)
  cookies : List (String × String)
deriving DecidableEq

/-- Outcome of the pre-relay section of `proxy_websocket`: either the
connection is closed with a code and reason before being accepted, or it is
accepted and an upstream connection is opened to `upstream_url` with the
given spoofed `Origin` header. -/
inductive WsOutcome where
  | rejected (code : Nat) (reason : String)
  | accepted (upstream_url : String) (origin : String)
deriving DecidableEq

/-- A `WsOutcome` together with the upstream URLs dialled (empty for every
rejection: `websockets.connect` is only reached after `accept()`). -/
structure WsResult where
  outcome : WsOutcome
  dials : List String
deriving DecidableEq

/-- Line 276: `websocket.query_params.get("token") or websocket.cookies.get(...)`.
Python `or` falls through on `None` and on the empty string. -/
def ws_entry_token (ws : WsRequest) (instance_id : String) : Option String :=
  match dict_opt ws.query_params "token" with
  | some s => if s = "" then dict_opt ws.cookies ("proxy_token_" ++ instance_id) else some s
  | none => dict_opt ws.cookies ("proxy_token_" ++ instance_id)

/-- `proxy_websocket` from `app/routers/proxy.py` (lines 258-311), up to and
including the upstream dial: entry-credential resolution, the three
pre-accept checks with their close codes (4001 missing token, 4003
unauthorized, 4004 cannot relay carrying `str(e.detail)`), and the upstream
URL/Origin construction. -/
def proxy_websocket (verify : String → Option User) (instances : List MinerInstance)
    (instance_id : String) (path : String) (ws : WsRequest) : WsResult :=
  match ws_entry_token ws instance_id with
  | none => { outcome := .rejected 4001 "Missing token", dials := [] }
  | some token =>
    if token = "" then { outcome := .rejected 4001 "Missing token", dials := [] }
    else
      match verify token with
      | none => { outcome := .rejected 4003 "Unauthorized", dials := [] }
      | some current_user =>
        match resolve_port instances current_user instance_id with
        | .error e => { outcome := .rejected 4004 e.detail, dials := [] }
        | .ok port =>
          let upstream_qs := qs_join (ws.query_params.filter (fun kv => kv.1 != "token"))
          let upstream_url := "ws://127.0.0.1:" ++ toString port ++ "/" ++ path ++
            (if upstream_qs = "" then "" else "?" ++ upstream_qs)
          { outcome := .accepted upstream_url ("http://127.0.0.1:" ++ toString port)
            dials := [upstream_url] }

/-- One WebSocket frame: text or binary (payload bytes). -/
inductive WsFrame where
  | text (data : String)
  | binary (data : List Nat)
deriving DecidableEq

/-- One event delivered by Starlette's `websocket.receive()`: a disconnect,
or a message dict carrying an optional `bytes` and an optional `text`
member. -/
inductive ClientEvent where
  | disconnect
  | message (bytes : Option (List Nat)) (text : Option String)
deriving DecidableEq

/-- `forward_to_upstream` (lines 314-329): consume `receive()` events until
disconnect; a message with `bytes` is sent as a binary frame, else one with
`text` as a text frame. -/
def forward_to_upstream : List ClientEvent → List WsFrame
  | [] => []
  | ClientEvent.disconnect :: _ => []
  | ClientEvent.message (some b) _ :: rest => WsFrame.binary b :: forward_to_upstream rest
  | ClientEvent.message none (some t) :: rest => WsFrame.text t :: forward_to_upstream rest
  | ClientEvent.message none none :: rest => forward_to_upstream rest

/-- `forward_to_client` (lines 331-339): every upstream message that is
`bytes` is sent with `send_bytes`, every other with `send_text`. -/
def forward_to_client : List WsFrame → List WsFrame
  | [] => []
  | WsFrame.binary b :: rest => WsFrame.binary b :: forward_to_client rest
  | WsFrame.text t :: rest => WsFrame.text t :: forward_to_client rest

/-- How Starlette's `receive()` presents a frame sent by the client: a text
frame arrives with the `text` member set, a binary frame with the `bytes`
member set. -/
def frame_event : WsFrame → ClientEvent
  | WsFrame.text t => ClientEvent.message none (some t)
  | WsFrame.binary b => ClientEvent.message (some b) none

/-- `true` iff no pattern of `prs` matches at any of the first `n` scan
positions of the list. -/
def scan_clear (prs : List (List Char × List Char)) : List Char → Nat → Bool
  | _, 0 => true
  | [], _ + 1 => true
  | c :: rest, n + 1 => (find_at prs (c :: rest)).isNone && scan_clear prs rest n

/-- The leftmost match position of the head-injection regex, expressed as
the index just past the match (where the shim gets inserted). -/
def spec_find_head : List Char → Option Nat
  | [] => none
  | c :: rest =>
    match match_head_at (c :: rest) with
    | some n => some n
    | none => (spec_find_head rest).map (fun m => m + 1)


/-- Claim-side (spec §8) predicate: the request lacks all three credential
sources — no bearer-scheme `Authorization` header, no `token` query
parameter, no `proxy_token_<instance_id>` cookie. -/
def no_credentials (request : HttpRequest) (instance_id : String) : Bool :=
  !(py_startsWith (header_get request.headers "Authorization") "Bearer ")
    && dict_get request.query_params "token" == ""
    && dict_get request.cookies ("proxy_token_" ++ instance_id) == ""

/-- The bearer-header extractor as the spec words it: the token carried by a
bearer-scheme `Authorization` header, `""` when there is none. -/
def bearer_token (request : HttpRequest) : String :=
  let auth_header := header_get request.headers "Authorization"
  if py_startsWith auth_header "Bearer " then py_drop auth_header 7 else ""

/-- First extractor result that is non-empty, with its token-from-url flag
(spec §4.2/§9: "explicit ordered list of extractor functions,
short-circuiting on first non-empty result"). -/
def first_nonempty : List (String × Bool) → String × Bool
  | [] => ("", false)
  | (t, f) :: rest => if t = "" then first_nonempty rest else (t, f)

/-- The credential chain exactly as the spec describes it: ordered
extractors (bearer header, `token` query parameter flagged token-from-url,
instance cookie), first non-empty result wins. -/
def spec_credential_chain (request : HttpRequest) (instance_id : String) : String × Bool :=
  first_nonempty
    [(bearer_token request, false),
     (dict_get request.query_params "token", true),
     (dict_get request.cookies ("proxy_token_" ++ instance_id), false)]

/-- An outcome produced by the authentication/authorization phase of
`proxy_http`: the early 401, or a raised 404 (not found / not owned) or 503
(not running).  502/504 arise only after an upstream attempt. -/
def ProxyOutcome.auth_phase_failure : ProxyOutcome → Bool
  | .authFail _ _ => true
  | .httpError e => e.status_code == 404 || e.status_code == 503
  | .ok _ => false

/-- C3 counterexample request: an `Authorization: Bearer ` header whose
bearer token is empty, alongside a perfectly good `token` query parameter. -/
def req_bearer_empty : HttpRequest :=
  { method := "GET"
    headers := [("Authorization", "Bearer ")]
    query_params := [("token", "tok123")]
    cookies := []
    body := [] }

/-- C6 demonstration document: one root-absolute link. -/
def c6_input : List Char :=
  ("<a href=\"/x\">").data

/-- The C6 document after one pass of the HTML transformation. -/
def c6_once : List Char :=
  rewrite_html "I1" c6_input

/-- The C6 document after feeding the transformed output back through the
transformation. -/
def c6_twice : List Char :=
  rewrite_html "I1" c6_once

deriving instance DecidableEq for Except

theorem find_at_some {prs : List (List Char × List Char)} {s : List Char}
    {pr : List Char × List Char} (h : find_at prs s = some pr) :
    1 ≤ pr.1.length ∧ pr.1.isPrefixOf s = true := by
  have hp := List.find?_some h
  rw [Bool.and_eq_true] at hp
  refine ⟨?_, hp.2⟩
  cases h1 : pr.1 with
  | nil => rw [h1] at hp; simp [List.isEmpty] at hp
  | cons a l => simp

theorem multi_sub_fuel (prs : List (List Char × List Char)) :
    ∀ (n : Nat) (s : List Char) (f g : Nat), s.length ≤ n → s.length ≤ f → s.length ≤ g →
      multi_sub prs f s = multi_sub prs g s := by
  intro n
  induction n with
  | zero =>
    intro s f g hn _ _
    have hs : s = [] := List.length_eq_zero.mp (Nat.le_zero.mp hn)
    subst hs
    cases f <;> cases g <;> rfl
  | succ n ih =>
    intro s f g hn hf hg
    cases s with
    | nil => cases f <;> cases g <;> rfl
    | cons c rest =>
      rw [List.length_cons] at hn hf hg
      cases f with
      | zero => omega
      | succ f' =>
        cases g with
        | zero => omega
        | succ g' =>
          simp only [multi_sub]
          cases hfind : find_at prs (c :: rest) with
          | none =>
            exact congrArg _ (ih rest f' g' (by omega) (by omega) (by omega))
          | some pr =>
            have hlen := (find_at_some hfind).1
            have hdrop : ((c :: rest).drop pr.1.length).length ≤ rest.length := by
              rw [List.length_drop, List.length_cons]
              omega
            exact congrArg _ (ih ((c :: rest).drop pr.1.length) f' g'
              (by omega) (by omega) (by omega))

theorem re_sub_walk (prs : List (List Char × List Char)) :
    ∀ (u w : List Char), scan_clear prs (u ++ w) u.length = true →
      re_sub prs (u ++ w) = u ++ re_sub prs w := by
  intro u
  induction u with
  | nil => intro w _; simp
  | cons c u' ih =>
    intro w h
    rw [List.cons_append, List.length_cons] at h
    unfold scan_clear at h
    rw [Bool.and_eq_true] at h
    have hnone : find_at prs (c :: (u' ++ w)) = none := by
      simpa [Option.isNone_iff_eq_none] using h.1
    show re_sub prs ((c :: u') ++ w) = (c :: u') ++ re_sub prs w
    rw [List.cons_append]
    unfold re_sub
    rw [List.length_cons]
    simp only [multi_sub, hnone]
    rw [List.cons_append]
    exact congrArg _ (ih w h.2)

theorem re_sub_match (prs : List (List Char × List Char)) (pat rep v : List Char)
    (hm : find_at prs (pat ++ v) = some (pat, rep)) :
    re_sub prs (pat ++ v) = rep ++ re_sub prs v := by
  have hps := find_at_some hm
  cases hpat : pat with
  | nil => rw [hpat] at hps; simp at hps
  | cons a pat' =>
    subst hpat
    rw [List.cons_append] at hm ⊢
    unfold re_sub
    rw [List.length_cons]
    simp only [multi_sub, hm]
    have hdrop : (a :: (pat' ++ v)).drop (a :: pat').length = v := by
      rw [List.length_cons, List.drop_succ_cons, List.drop_left]
    rw [hdrop, List.length_append]
    have : multi_sub prs (pat' ++ v).length v = multi_sub prs v.length v :=
      multi_sub_fuel prs (pat' ++ v).length v _ _
        (by rw [List.length_append]; omega)
        (by rw [List.length_append]; omega)
        (Nat.le_refl _)
    rw [List.length_append] at this
    rw [this]

theorem re_sub_split (prs : List (List Char × List Char)) (u pat rep v : List Char)
    (hm : find_at prs (pat ++ v) = some (pat, rep))
    (hu : scan_clear prs (u ++ (pat ++ v)) u.length = true) :
    re_sub prs (u ++ pat ++ v) = u ++ rep ++ re_sub prs v := by
  rw [List.append_assoc, re_sub_walk prs u (pat ++ v) hu,
    re_sub_match prs pat rep v hm, List.append_assoc]

theorem re_sub_clear (prs : List (List Char × List Char)) (s : List Char)
    (h : scan_clear prs s s.length = true) :
    re_sub prs s = s := by
  have hw := re_sub_walk prs s [] (by simpa using h)
  simpa [show re_sub prs ([] : List Char) = [] from rfl] using hw

theorem inject_once_spec (sh : List Char) :
    ∀ s : List Char, inject_once sh s =
      match spec_find_head s with
      | some m => s.take m ++ sh ++ s.drop m
      | none => s := by
  intro s
  induction s with
  | nil => rfl
  | cons c rest ih =>
    unfold inject_once spec_find_head
    cases hm : match_head_at (c :: rest) with
    | some n => simp [hm]
    | none =>
      simp only [hm]
      rw [ih]
      cases hs : spec_find_head rest with
      | none => simp
      | some m => simp [List.take_succ_cons, List.drop_succ_cons]

theorem contains_of_isPre {pat s : List Char} (h : pat.isPrefixOf s = true) :
    listContains pat s = true := by
  cases s with
  | nil =>
    cases pat with
    | nil => rfl
    | cons a l => simp [List.isPrefixOf] at h
  | cons c rest =>
    unfold listContains
    rw [h, Bool.true_or]

theorem contains_append_right {pat v : List Char} (u : List Char)
    (h : listContains pat v = true) :
    listContains pat (u ++ v) = true := by
  induction u with
  | nil => simpa using h
  | cons c u' ih =>
    rw [List.cons_append]
    unfold listContains
    rw [ih, Bool.or_true]

theorem no_head_no_match {s : List Char} (h : listContains head_chars s = false) :
    spec_find_head s = none := by
  induction s with
  | nil => rfl
  | cons c rest ih =>
    unfold listContains at h
    rw [Bool.or_eq_false_iff] at h
    have hmha : match_head_at (c :: rest) = none := by
      unfold match_head_at
      rw [h.1]
      simp
    unfold spec_find_head
    rw [hmha, ih h.2]
    rfl

theorem contains_take_of_head_match :
    ∀ (s : List Char) (m : Nat), spec_find_head s = some m →
      listContains head_chars (s.take m) = true := by
  intro s
  induction s with
  | nil => intro m h; simp [spec_find_head] at h
  | cons c rest ih =>
    intro m h
    unfold spec_find_head at h
    cases hm : match_head_at (c :: rest) with
    | some n =>
      rw [hm] at h
      have hnm : n = m := by injection h
      subst hnm
      unfold match_head_at at hm
      by_cases hp : head_chars.isPrefixOf (c :: rest) = true
      · have hpre : head_chars <+: (c :: rest) := List.isPrefixOf_iff_prefix.mp hp
        cases hk : (List.findIdx? (fun c => c == '>') ((c :: rest).drop 5)) with
        | none => rw [if_pos hp, hk] at hm; simp at hm
        | some k =>
          rw [if_pos hp, hk] at hm
          have hn : 5 + k + 1 = n := by injection hm
          have h5 : head_chars.length ≤ n := by
            have : head_chars.length = 5 := by decide
            omega
          have : head_chars <+: (c :: rest).take n :=
            List.prefix_take_iff.mpr ⟨hpre, h5⟩
          exact contains_of_isPre (List.isPrefixOf_iff_prefix.mpr this)
      · rw [if_neg hp] at hm
        simp at hm
    | none =>
      rw [hm] at h
      cases hs : spec_find_head rest with
      | none => rw [hs] at h; simp at h
      | some m' =>
        rw [hs] at h
        simp only [Option.map_some] at h
        injection h with h
        subst h
        rw [List.take_succ_cons]
        unfold listContains
        rw [ih m' hs, Bool.or_true]

theorem contains_append_left {pat u : List Char} (v : List Char)
    (h : listContains pat u = true) :
    listContains pat (u ++ v) = true := by
  induction u with
  | nil =>
    unfold listContains at h
    have : pat = [] := by
      cases pat with
      | nil => rfl
      | cons a l => simp [List.isEmpty] at h
    subst this
    cases v with
    | nil => rfl
    | cons c rest =>
      unfold listContains
      simp
  | cons c u' ih =>
    rw [List.cons_append]
    unfold listContains at h ⊢
    rw [Bool.or_eq_true] at h
    cases h with
    | inl h =>
      have hpre : pat <+: (c :: u') := List.isPrefixOf_iff_prefix.mp h
      have hc : pat <+: ((c :: u') ++ v) := hpre.trans (List.prefix_append _ _)
      rw [List.isPrefixOf_iff_prefix.mpr (by simpa using hc), Bool.true_or]
    | inr h =>
      rw [ih h, Bool.or_true]

theorem inject_phase_absent (sh s : List Char)
    (h : listContains head_chars s = false) :
    inject_phase sh s = sh ++ s := by
  unfold inject_phase
  rw [inject_once_spec, no_head_no_match h]
  simp [h]

theorem inject_phase_no_match (sh s : List Char)
    (h1 : spec_find_head s = none)
    (h2 : listContains head_chars s = true) :
    inject_phase sh s = s := by
  unfold inject_phase
  rw [inject_once_spec, h1]
  simp [h2]

theorem inject_phase_at_match (sh s : List Char) (m : Nat)
    (h : spec_find_head s = some m) :
    inject_phase sh s = s.take m ++ sh ++ s.drop m := by
  unfold inject_phase
  rw [inject_once_spec, h]
  simp only []
  have hc : listContains head_chars (s.take m ++ (sh ++ s.drop m)) = true :=
    contains_append_left _ (contains_take_of_head_match s m h)
  rw [← List.append_assoc] at hc
  rw [hc]
  simp

theorem find?_filter_eq {α : Type} (l : List α) (p q : α → Bool)
    (h : ∀ x, q x = true → p x = true) :
    (l.filter p).find? q = l.find? q := by
  induction l with
  | nil => rfl
  | cons a l ih =>
    by_cases hq : q a = true
    · rw [List.filter_cons_of_pos (h a hq), List.find?_cons_of_pos _ hq,
        List.find?_cons_of_pos _ hq]
    · by_cases hp : p a = true
      · rw [List.filter_cons_of_pos hp, List.find?_cons_of_neg _ hq,
          List.find?_cons_of_neg _ hq, ih]
      · rw [List.filter_cons_of_neg hp, List.find?_cons_of_neg _ hq, ih]

theorem header_get_filter (l : List (String × String)) (p : String × String → Bool)
    (k : String) (h : ∀ kv, (lowerStr kv.1 == lowerStr k) = true → p kv = true) :
    header_get (l.filter p) k = header_get l k := by
  unfold header_get
  rw [find?_filter_eq l p _ h]
/-- C1: for a non-admin principal, an instance id that does not exist at all
(`insts₁`) and one that exists but is owned by someone else (`insts₂`, where
every instance carrying that id has a different owner) fail identically:
both produce the very same `HTTPException 404 "Instance not found"`, so
ownership is indistinguishable from non-existence to the caller. -/
theorem resolve_port_notfound_indistinguishable
    (u : User) (instance_id : String) (insts₁ insts₂ : List MinerInstance)
    (hadmin : u.is_admin = false)
    (h₁ : ∀ i ∈ insts₁, i.id ≠ instance_id)
    (h₂ : ∀ i ∈ insts₂, i.id = instance_id → i.user_id ≠ u.id) :
    resolve_port insts₁ u instance_id = .error ⟨404, "Instance not found"⟩
    ∧ resolve_port insts₂ u instance_id = resolve_port insts₁ u instance_id := by
  have f₁ : insts₁.find? (fun i => i.id == instance_id && i.user_id == u.id) = none := by
    rw [List.find?_eq_none]
    intro i hi
    simp only [Bool.and_eq_true, beq_iff_eq, not_and]
    intro hid
    exact absurd hid (h₁ i hi)
  have f₂ : insts₂.find? (fun i => i.id == instance_id && i.user_id == u.id) = none := by
    rw [List.find?_eq_none]
    intro i hi
    simp only [Bool.and_eq_true, beq_iff_eq, not_and]
    exact h₂ i hi
  constructor
  · simp only [resolve_port, hadmin, Bool.false_eq_true, if_false, f₁]
  · simp only [resolve_port, hadmin, Bool.false_eq_true, if_false, f₁, f₂]

/-- Witness for `resolve_port_notfound_indistinguishable`: user `u1`, id
`I9`; in the first state no instance has id `I9`, in the second an `I9`
owned by `u2` exists. -/
theorem resolve_port_notfound_indistinguishable_witness :
    resolve_port [⟨"I1", "u2", InstanceState.running, some 7000⟩]
        ⟨"u1", UserRole.user⟩ "I9" = .error ⟨404, "Instance not found"⟩
    ∧ resolve_port [⟨"I9", "u2", InstanceState.running, some 7000⟩]
        ⟨"u1", UserRole.user⟩ "I9"
      = resolve_port [⟨"I1", "u2", InstanceState.running, some 7000⟩]
        ⟨"u1", UserRole.user⟩ "I9" :=
  resolve_port_notfound_indistinguishable
    ⟨"u1", UserRole.user⟩ "I9"
    [⟨"I1", "u2", InstanceState.running, some 7000⟩]
    [⟨"I9", "u2", InstanceState.running, some 7000⟩]
    (by decide) (by decide) (by decide)

/-- C9: both relay directions forward frames verbatim, preserving frame
type: the upstream sees exactly the client's frame sequence (text as text,
binary as identical bytes) and the client sees exactly the upstream's. -/
theorem websocket_frames_verbatim (client_frames upstream_frames : List WsFrame) :
    forward_to_upstream (client_frames.map frame_event) = client_frames
    ∧ forward_to_client upstream_frames = upstream_frames := by
  constructor
  · induction client_frames with
    | nil => rfl
    | cons f rest ih =>
      cases f <;> simp [frame_event, forward_to_upstream, ih]
  · induction upstream_frames with
    | nil => rfl
    | cons f rest ih =>
      cases f <;> simp [forward_to_client, ih]

/-- C8: the WebSocket pre-accept gate.  A missing (or empty) entry
credential closes with 4001 `Missing token` and dials nothing; a credential
that fails verification closes with 4003 `Unauthorized`; an authorization
failure closes with 4004 carrying the failure reason as the close reason
text; an accepted connection implies all three checks passed; and the three
codes are pairwise distinct and non-1000. -/
theorem websocket_preaccept_gate (verify : String → Option User)
    (instances : List MinerInstance) (instance_id path : String) (ws : WsRequest) :
    (ws_entry_token ws instance_id = none ∨ ws_entry_token ws instance_id = some "" →
      proxy_websocket verify instances instance_id path ws
        = { outcome := .rejected 4001 "Missing token", dials := [] })
    ∧ (∀ tok, ws_entry_token ws instance_id = some tok → tok ≠ "" → verify tok = none →
      proxy_websocket verify instances instance_id path ws
        = { outcome := .rejected 4003 "Unauthorized", dials := [] })
    ∧ (∀ tok u e, ws_entry_token ws instance_id = some tok → tok ≠ "" →
      verify tok = some u → resolve_port instances u instance_id = .error e →
      proxy_websocket verify instances instance_id path ws
        = { outcome := .rejected 4004 e.detail, dials := [] })
    ∧ (∀ url org, (proxy_websocket verify instances instance_id path ws).outcome
        = .accepted url org →
      ∃ tok u port, ws_entry_token ws instance_id = some tok ∧ tok ≠ ""
        ∧ verify tok = some u ∧ resolve_port instances u instance_id = .ok port)
    ∧ ((4001 : Nat) ≠ 4003 ∧ 4001 ≠ 4004 ∧ 4003 ≠ 4004
        ∧ 4001 ≠ 1000 ∧ 4003 ≠ 1000 ∧ 4004 ≠ 1000) := by
  refine ⟨?_, ?_, ?_, ?_, by decide⟩
  · intro h
    unfold proxy_websocket
    cases h with
    | inl h => rw [h]
    | inr h => rw [h]; simp
  · intro tok h hne hv
    unfold proxy_websocket
    rw [h]
    simp [hne, hv]
  · intro tok u e h hne hv hr
    unfold proxy_websocket
    rw [h]
    simp [hne, hv, hr]
  · intro url org hacc
    unfold proxy_websocket at hacc
    cases het : ws_entry_token ws instance_id with
    | none => rw [het] at hacc; simp at hacc
    | some tok =>
      rw [het] at hacc
      by_cases htok : tok = ""
      · simp [htok] at hacc
      · cases hv : verify tok with
        | none => simp [htok, hv] at hacc
        | some u' =>
          cases hr : resolve_port instances u' instance_id with
          | error e => simp [htok, hv, hr] at hacc
          | ok port =>
            exact ⟨tok, u', port, rfl, htok, hv, hr⟩

/-- Witness for `websocket_preaccept_gate`: a handshake with neither token
query parameter nor cookie is rejected 4001 without a dial. -/
theorem websocket_preaccept_gate_witness :
    proxy_websocket (fun _ => none) [] "I3" "socket.io" { query_params := [], cookies := [] }
      = { outcome := .rejected 4001 "Missing token", dials := [] } :=
  (websocket_preaccept_gate (fun _ => none) [] "I3" "socket.io"
    { query_params := [], cookies := [] }).1 (Or.inl (by decide))

/-- C3 counterexample: with `Authorization: Bearer ` (empty bearer token)
and a non-empty `token` query parameter, the code takes the header branch
and ends up with the empty credential (yielding 401), whereas a chain that
short-circuits on the first non-empty extractor result would use the query
token; the two disagree, so the credential resolution is not the claimed
first-non-empty chain. -/
theorem credential_chain_counterexample :
    credential_of req_bearer_empty "I1" ≠ spec_credential_chain req_bearer_empty "I1"
    ∧ credential_of req_bearer_empty "I1" = ("", false)
    ∧ spec_credential_chain req_bearer_empty "I1" = ("tok123", true)
    ∧ (proxy_http (fun t => if t = "tok123" then some ⟨"u1", UserRole.user⟩ else none)
        [⟨"I1", "u1", InstanceState.running, some 7000⟩]
        (fun _ => .ok ⟨200, [("content-type", "text/plain")], [] ⟩)
        "I1" "" req_bearer_empty).outcome
      = .authFail 401 "Not authenticated" := by
  refine ⟨by decide, by decide, by decide, by decide⟩

/-- C3 (amended): the credential resolution agrees with the spec's
priority-ordered, short-circuit-on-first-non-empty extractor chain on every
request whose bearer-scheme `Authorization` header, when present, carries a
non-empty token; the header attempt short-circuits on the structural
presence of the bearer scheme, so only the empty-bearer-token corner
diverges. -/
theorem credential_chain_amended (request : HttpRequest) (instance_id : String)
    (h : py_startsWith (header_get request.headers "Authorization") "Bearer " = true →
      py_drop (header_get request.headers "Authorization") 7 ≠ "") :
    credential_of request instance_id = spec_credential_chain request instance_id := by
  by_cases hb : py_startsWith (header_get request.headers "Authorization") "Bearer " = true
  · have hne := h hb
    simp [credential_of, spec_credential_chain, bearer_token, first_nonempty, hb, hne]
  · have hb' : py_startsWith (header_get request.headers "Authorization") "Bearer " = false :=
      eq_false_of_ne_true hb
    by_cases hq : dict_get request.query_params "token" = ""
    · by_cases hck : dict_get request.cookies ("proxy_token_" ++ instance_id) = ""
      · simp [credential_of, spec_credential_chain, bearer_token, first_nonempty, hb', hq, hck]
      · simp [credential_of, spec_credential_chain, bearer_token, first_nonempty, hb', hq, hck]
    · simp [credential_of, spec_credential_chain, bearer_token, first_nonempty, hb', hq]

/-- Witness for `credential_chain_amended`: a request carrying a non-empty
bearer token plus a competing query token resolves identically in code and
spec chain. -/
theorem credential_chain_amended_witness :
    credential_of
      { method := "GET", headers := [("Authorization", "Bearer abc")],
        query_params := [("token", "qqq")], cookies := [], body := [] } "I1"
      = spec_credential_chain
      { method := "GET", headers := [("Authorization", "Bearer abc")],
        query_params := [("token", "qqq")], cookies := [], body := [] } "I1" :=
  credential_chain_amended
    { method := "GET", headers := [("Authorization", "Bearer abc")],
      query_params := [("token", "qqq")], cookies := [], body := [] } "I1"
    (fun _ => by decide)

/-- C2: a request lacking all three credential sources is answered with the
401 `Not authenticated` JSON body and no upstream request is issued; more
generally, whenever `proxy_http` ends in an authentication or authorization
failure (401, 404 not-found/not-owned, 503 not-running) the upstream call
list is empty — failures of the access phase always precede upstream I/O. -/
theorem proxy_http_auth_failures_precede_upstream (verify : String → Option User)
    (instances : List MinerInstance)
    (upstream : UpstreamRequest → Except UpstreamFailure UpstreamResponse)
    (instance_id path : String) (request : HttpRequest) :
    (no_credentials request instance_id = true →
      proxy_http verify instances upstream instance_id path request
        = { outcome := .authFail 401 "Not authenticated", upstream_calls := [] })
    ∧ ((proxy_http verify instances upstream instance_id path request).outcome.auth_phase_failure
        = true →
      (proxy_http verify instances upstream instance_id path request).upstream_calls = []) := by
  constructor
  · intro h
    simp only [no_credentials, Bool.and_eq_true, Bool.not_eq_true', beq_iff_eq] at h
    obtain ⟨⟨hb, hq⟩, hc⟩ := h
    have hcred : credential_of request instance_id = ("", false) := by
      simp [credential_of, hb, hq, hc]
    unfold proxy_http
    rw [hcred]
    simp
  · intro h
    rcases hcr : credential_of request instance_id with ⟨t, f⟩
    by_cases ht : t = ""
    · unfold proxy_http
      rw [hcr]
      simp [ht]
    · cases hv : verify t with
      | none =>
        unfold proxy_http
        rw [hcr]
        simp [ht, hv]
      | some cu =>
        cases hr : resolve_port instances cu instance_id with
        | error e =>
          unfold proxy_http
          rw [hcr]
          simp [ht, hv, hr]
        | ok port =>
          exfalso
          unfold proxy_http at h
          rw [hcr] at h
          cases hu : upstream (upstream_request_of port path request) with
          | error fail =>
            cases fail <;>
              simp [ht, hv, hr, hu, ProxyOutcome.auth_phase_failure] at h
          | ok up =>
            simp [ht, hv, hr, hu, ProxyOutcome.auth_phase_failure] at h

/-- Witness for `proxy_http_auth_failures_precede_upstream`: a bare request
with no header, query or cookie credential gets the 401 and no upstream
call. -/
theorem proxy_http_auth_failures_precede_upstream_witness :
    proxy_http (fun _ => none) [] (fun _ => .error .connectError) "I1" ""
      { method := "GET", headers := [], query_params := [], cookies := [], body := [] }
      = { outcome := .authFail 401 "Not authenticated", upstream_calls := [] } :=
  (proxy_http_auth_failures_precede_upstream (fun _ => none) [] (fun _ => .error .connectError)
    "I1" "" { method := "GET", headers := [], query_params := [], cookies := [], body := [] }).1
    (by decide)

/-- C7: on every response the relay actually produces (i.e. the upstream
exchange happened), the Set-Cookie is present exactly when the credential
came from the `token` query parameter, and then it is precisely
`proxy_token_<instance_id>` carrying the raw token, http-only, secure,
same-site lax, scoped to `/api/instances/<instance_id>/ui`, max-age 3600;
requests authenticated via the bearer header, or via the cookie itself
(no bearer header and empty `token` parameter), never set a cookie. -/
theorem proxy_session_cookie_exactly_on_url_token (verify : String → Option User)
    (instances : List MinerInstance)
    (upstream : UpstreamRequest → Except UpstreamFailure UpstreamResponse)
    (instance_id path : String) (request : HttpRequest) :
    (∀ resp, (proxy_http verify instances upstream instance_id path request).outcome = .ok resp →
      resp.set_cookie =
        (if (credential_of request instance_id).2 then
          some { key := "proxy_token_" ++ instance_id
                 value := (credential_of request instance_id).1
                 httponly := true
                 secure := true
                 samesite := "lax"
                 path := "/api/instances/" ++ instance_id ++ "/ui"
                 max_age := 3600 }
         else none))
    ∧ (py_startsWith (header_get request.headers "Authorization") "Bearer " = true →
      ∀ resp, (proxy_http verify instances upstream instance_id path request).outcome = .ok resp →
        resp.set_cookie = none)
    ∧ (py_startsWith (header_get request.headers "Authorization") "Bearer " = false →
      dict_get request.query_params "token" = "" →
      ∀ resp, (proxy_http verify instances upstream instance_id path request).outcome = .ok resp →
        resp.set_cookie = none) := by
  have main : ∀ resp,
      (proxy_http verify instances upstream instance_id path request).outcome = .ok resp →
      resp.set_cookie =
        (if (credential_of request instance_id).2 then
          some { key := "proxy_token_" ++ instance_id
                 value := (credential_of request instance_id).1
                 httponly := true
                 secure := true
                 samesite := "lax"
                 path := "/api/instances/" ++ instance_id ++ "/ui"
                 max_age := 3600 }
         else none) := by
    intro resp hok
    rcases hcr : credential_of request instance_id with ⟨t, f⟩
    by_cases ht : t = ""
    · unfold proxy_http at hok
      rw [hcr] at hok
      simp [ht] at hok
    · cases hv : verify t with
      | none =>
        unfold proxy_http at hok
        rw [hcr] at hok
        simp [ht, hv] at hok
      | some cu =>
        cases hr : resolve_port instances cu instance_id with
        | error e =>
          unfold proxy_http at hok
          rw [hcr] at hok
          simp [ht, hv, hr] at hok
        | ok port =>
          cases hu : upstream (upstream_request_of port path request) with
          | error fail =>
            unfold proxy_http at hok
            rw [hcr] at hok
            cases fail <;> simp [ht, hv, hr, hu] at hok
          | ok up =>
            unfold proxy_http at hok
            rw [hcr] at hok
            simp only [ht, hv, hr, hu] at hok
            simp [ht, hv, hr, hu] at hok
            rw [← hok]
  refine ⟨main, ?_, ?_⟩
  · intro hb resp hok
    have hf : (credential_of request instance_id).2 = false := by
      simp [credential_of, hb]
    rw [main resp hok, hf]
    simp
  · intro hb hq resp hok
    have hf : (credential_of request instance_id).2 = false := by
      simp [credential_of, hb, hq]
    rw [main resp hok, hf]
    simp

/-- Witness for `proxy_session_cookie_exactly_on_url_token`: a URL-token
request that reaches the upstream gets exactly the scoped, http-only,
secure, lax, 1-hour `proxy_token_I1` cookie. -/
theorem proxy_session_cookie_exactly_on_url_token_witness :
    ({ status_code := 200
       headers := [("content-type", "text/plain")]
       body := []
       set_cookie := some { key := "proxy_token_I1", value := "tok", httponly := true,
                            secure := true, samesite := "lax",
                            path := "/api/instances/I1/ui", max_age := 3600 } } : RelayResponse).set_cookie
      = (if (credential_of
              { method := "GET", headers := [], query_params := [("token", "tok")],
                cookies := [], body := [] } "I1").2 then
          some { key := "proxy_token_I1"
                 value := (credential_of
                   { method := "GET", headers := [], query_params := [("token", "tok")],
                     cookies := [], body := [] } "I1").1
                 httponly := true
                 secure := true
                 samesite := "lax"
                 path := "/api/instances/I1/ui"
                 max_age := 3600 }
         else none) :=
  (proxy_session_cookie_exactly_on_url_token
    (fun t => if t = "tok" then some ⟨"u1", UserRole.user⟩ else none)
    [⟨"I1", "u1", InstanceState.running, some 7000⟩]
    (fun _ => .ok ⟨200, [("content-type", "text/plain")], []⟩)
    "I1" ""
    { method := "GET", headers := [], query_params := [("token", "tok")],
      cookies := [], body := [] }).1
    { status_code := 200
      headers := [("content-type", "text/plain")]
      body := []
      set_cookie := some { key := "proxy_token_I1", value := "tok", httponly := true,
                           secure := true, samesite := "lax",
                           path := "/api/instances/I1/ui", max_age := 3600 } }
    (by decide)

/-- C4: for every authorized request (resolved credential, verified user,
resolved running port) exactly one upstream request is issued; its method
and body are the client's, its URL is `http://127.0.0.1:<port>/<path>`
carrying the original query string minus `token`, and its header set is
exactly the client headers minus the case-insensitive hop-by-hop set plus
`host` rebound to the upstream authority `127.0.0.1:<port>`. -/
theorem proxy_http_upstream_request_shape (verify : String → Option User)
    (instances : List MinerInstance)
    (upstream : UpstreamRequest → Except UpstreamFailure UpstreamResponse)
    (instance_id path : String) (request : HttpRequest)
    (t : String) (f : Bool) (cu : User) (port : Nat)
    (hcred : credential_of request instance_id = (t, f))
    (ht : t ≠ "")
    (hv : verify t = some cu)
    (hr : resolve_port instances cu instance_id = .ok port) :
    (proxy_http verify instances upstream instance_id path request).upstream_calls
      = [upstream_request_of port path request]
    ∧ (upstream_request_of port path request).method = request.method
    ∧ (upstream_request_of port path request).content = request.body
    ∧ (upstream_request_of port path request).url
      = "http://127.0.0.1:" ++ toString port ++ "/" ++ path ++
        (if qs_join (request.query_params.filter (fun kv => kv.1 != "token")) == "" then ""
         else "?" ++ qs_join (request.query_params.filter (fun kv => kv.1 != "token")))
    ∧ (∀ kv, kv ∈ (upstream_request_of port path request).headers ↔
        ((kv ∈ request.headers ∧ HOP_BY_HOP.contains (lowerStr kv.1) = false)
          ∨ kv = ("host", "127.0.0.1:" ++ toString port))) := by
  refine ⟨?_, rfl, rfl, rfl, ?_⟩
  · unfold proxy_http
    rw [hcred]
    cases hu : upstream (upstream_request_of port path request) with
    | error fail => cases fail <;> simp [ht, hv, hr, hu]
    | ok up => simp [ht, hv, hr, hu]
  · intro kv
    unfold upstream_request_of forward_headers_of
    simp only [List.mem_append, List.mem_filter, List.mem_singleton,
      Bool.not_eq_true', Bool.not_eq_eq_eq_not]
    constructor
    · rintro (⟨hmem, hfil⟩ | hev)
      · exact Or.inl ⟨hmem, by simpa using hfil⟩
      · exact Or.inr hev
    · rintro (⟨hmem, hfil⟩ | hev)
      · exact Or.inl ⟨hmem, by simpa using hfil⟩
      · exact Or.inr hev

/-- Witness for `proxy_http_upstream_request_shape` on a concrete GET with
an extra query parameter, a token parameter, a `Connection` header and an
`X-Custom` header. -/
theorem proxy_http_upstream_request_shape_witness :
    (proxy_http (fun t => if t = "tok" then some ⟨"u1", UserRole.user⟩ else none)
      [⟨"I1", "u1", InstanceState.running, some 7000⟩]
      (fun _ => .error .connectError) "I1" "dash"
      { method := "GET", headers := [("Connection", "close"), ("X-Custom", "1")],
        query_params := [("token", "tok"), ("a", "b")], cookies := [], body := [] }).upstream_calls
      = [upstream_request_of 7000 "dash"
          { method := "GET", headers := [("Connection", "close"), ("X-Custom", "1")],
            query_params := [("token", "tok"), ("a", "b")], cookies := [], body := [] }] :=
  (proxy_http_upstream_request_shape
    (fun t => if t = "tok" then some ⟨"u1", UserRole.user⟩ else none)
    [⟨"I1", "u1", InstanceState.running, some 7000⟩]
    (fun _ => .error .connectError) "I1" "dash"
    { method := "GET", headers := [("Connection", "close"), ("X-Custom", "1")],
      query_params := [("token", "tok"), ("a", "b")], cookies := [], body := [] }
    "tok" true ⟨"u1", UserRole.user⟩ 7000
    (by decide) (by decide) (by decide) (by decide)).1

/-- C10: whenever the upstream response's `Content-Type` value does not
contain the substring `text/html` (in particular when it is absent, or is
e.g. `application/xhtml+xml`), the relay's response carries the upstream
body completely unmodified — no link rewriting, no shim — and preserves the
upstream status code and `Content-Type`. -/
theorem non_html_passthrough (verify : String → Option User)
    (instances : List MinerInstance)
    (upstream : UpstreamRequest → Except UpstreamFailure UpstreamResponse)
    (instance_id path : String) (request : HttpRequest)
    (t : String) (f : Bool) (cu : User) (port : Nat) (up : UpstreamResponse)
    (hcred : credential_of request instance_id = (t, f))
    (ht : t ≠ "")
    (hv : verify t = some cu)
    (hr : resolve_port instances cu instance_id = .ok port)
    (hu : upstream (upstream_request_of port path request) = .ok up)
    (hct : listContains ("text/html").data (header_get up.headers "content-type").data = false) :
    ∃ resp, (proxy_http verify instances upstream instance_id path request).outcome = .ok resp
      ∧ resp.body = up.body
      ∧ resp.status_code = up.status_code
      ∧ header_get resp.headers "content-type" = header_get up.headers "content-type" := by
  refine ⟨{ status_code := up.status_code
            headers := up.headers.filter
              (fun kv => !(HOP_BY_HOP.contains (lowerStr kv.1)) && lowerStr kv.1 != "content-length")
            body := up.body
            set_cookie :=
              if f then
                some { key := "proxy_token_" ++ instance_id
                       value := t
                       httponly := true
                       secure := true
                       samesite := "lax"
                       path := "/api/instances/" ++ instance_id ++ "/ui"
                       max_age := 3600 }
              else none }, ?_, rfl, rfl, ?_⟩
  · unfold proxy_http
    rw [hcred]
    simp [ht, hv, hr, hu, hct]
  · apply header_get_filter
    intro kv hkv
    have hk : lowerStr kv.1 = lowerStr "content-type" := by simpa using hkv
    rw [hk]
    decide

/-- Witness for `non_html_passthrough`: an `application/xhtml+xml` response
passes through with body, status and content type untouched. -/
theorem non_html_passthrough_witness :
    ∃ resp,
      (proxy_http (fun t => if t = "tok" then some ⟨"u1", UserRole.user⟩ else none)
        [⟨"I1", "u1", InstanceState.running, some 7000⟩]
        (fun _ => .ok ⟨201, [("content-type", "application/xhtml+xml")], ("<p>/x</p>").data⟩)
        "I1" ""
        { method := "GET", headers := [("Authorization", "Bearer tok")],
          query_params := [], cookies := [], body := [] }).outcome = .ok resp
      ∧ resp.body = (⟨201, [("content-type", "application/xhtml+xml")], ("<p>/x</p>").data⟩
          : UpstreamResponse).body
      ∧ resp.status_code = (⟨201, [("content-type", "application/xhtml+xml")], ("<p>/x</p>").data⟩
          : UpstreamResponse).status_code
      ∧ header_get resp.headers "content-type"
        = header_get (⟨201, [("content-type", "application/xhtml+xml")], ("<p>/x</p>").data⟩
          : UpstreamResponse).headers "content-type" :=
  non_html_passthrough
    (fun t => if t = "tok" then some ⟨"u1", UserRole.user⟩ else none)
    [⟨"I1", "u1", InstanceState.running, some 7000⟩]
    (fun _ => .ok ⟨201, [("content-type", "application/xhtml+xml")], ("<p>/x</p>").data⟩)
    "I1" ""
    { method := "GET", headers := [("Authorization", "Bearer tok")],
      query_params := [], cookies := [], body := [] }
    "tok" false ⟨"u1", UserRole.user⟩ 7000
    ⟨201, [("content-type", "application/xhtml+xml")], ("<p>/x</p>").data⟩
    (by decide) (by decide) (by decide) (by decide) (by decide) (by decide)

/-- C5 counterexample: the HTML document `<head` (truncated, no `>`)
receives no shim at all — the injection regex `<head([^>]*)>` never matches,
and the fallback prepend is skipped because the substring `<head` is
present — contradicting the claim that the shim is injected as the first
child of `<head>` or prepended whenever no `<head>` tag exists.  The output
equals the input and the (non-empty) shim occurs nowhere in it. -/
theorem html_shim_injection_counterexample :
    rewrite_html "I1" (("<head").data) = ("<head").data
    ∧ listContains (shim_chars "I1") (("<head").data) = false
    ∧ shim_chars "I1" ≠ [] := by
  exact ⟨by decide, by decide, by decide⟩

/-- C5 (amended): the link-rewriting passes replace each leftmost-scan
occurrence of their literal patterns (`href="/`, `src="/`, `action="/`,
their single-quote forms, `url(/`) by inserting the instance base path
after the quote/paren and continue scanning after the match
(first conjunct, for each of the three source pattern lists); the composed
transformation is link rewriting followed by the injection phase, which
inserts the shim immediately after the leftmost match of
`<head` + non-`>` run + `>` when one exists, leaves the document unchanged
when no such match exists but `<head` occurs (e.g. truncated documents),
and prepends the shim when `<head` does not occur at all. -/
theorem html_rewrite_inject_amended (instance_id : String) (html : List Char)
    (u pat rep v : List Char) (prs : List (List Char × List Char))
    (_hprs : prs = attr_pats_dq instance_id ∨ prs = attr_pats_sq instance_id
      ∨ prs = url_pats instance_id)
    (hm : find_at prs (pat ++ v) = some (pat, rep))
    (hu : scan_clear prs (u ++ (pat ++ v)) u.length = true) :
    re_sub prs (u ++ pat ++ v) = u ++ rep ++ re_sub prs v
    ∧ rewrite_html instance_id html
      = inject_phase (shim_chars instance_id) (rewrite_links instance_id html)
    ∧ (∀ m, spec_find_head (rewrite_links instance_id html) = some m →
        rewrite_html instance_id html
          = (rewrite_links instance_id html).take m ++ shim_chars instance_id
              ++ (rewrite_links instance_id html).drop m)
    ∧ (spec_find_head (rewrite_links instance_id html) = none →
        listContains head_chars (rewrite_links instance_id html) = true →
        rewrite_html instance_id html = rewrite_links instance_id html)
    ∧ (listContains head_chars (rewrite_links instance_id html) = false →
        rewrite_html instance_id html
          = shim_chars instance_id ++ rewrite_links instance_id html) := by
  refine ⟨re_sub_split prs u pat rep v hm hu, rfl, ?_, ?_, ?_⟩
  · intro m hm2
    exact inject_phase_at_match _ _ m hm2
  · intro h1 h2
    exact inject_phase_no_match _ _ h1 h2
  · intro h
    exact inject_phase_absent _ _ h

/-- Witness for `html_rewrite_inject_amended`: one `href="/` occurrence
after a clean prefix `<p>` is rewritten to carry the base path, on the
double-quote pattern list of instance `I1`. -/
theorem html_rewrite_inject_amended_witness :
    re_sub (attr_pats_dq "I1") ((("<p>").data ++ ("href=\"/").data) ++ ("x").data)
      = ("<p>").data ++ ("href=\"" ++ ui_base "I1" ++ "/").data
          ++ re_sub (attr_pats_dq "I1") (("x").data) :=
  (html_rewrite_inject_amended "I1" (("<head><a href=\"/x\">").data)
    (("<p>").data) (("href=\"/").data) (("href=\"" ++ ui_base "I1" ++ "/").data)
    (("x").data) (attr_pats_dq "I1")
    (Or.inl rfl) (by decide) (by decide)).1

theorem c6_once_eq :
    c6_once = shim_chars "I1" ++ (("<a href=\"").data
      ++ ((ui_base "I1").data ++ ("/x\">").data)) := by
  decide

theorem c6_twice_eq :
    c6_twice = shim_chars "I1" ++ (shim_chars "I1" ++ (("<a href=\"").data
      ++ ((ui_base "I1").data ++ ((ui_base "I1").data ++ ("/x\">").data)))) := by
  have hA : (("<a href=\"").data ++ ((ui_base "I1").data ++ ("/x\">").data) : List Char)
      = ("<a ").data ++ (("href=\"/").data ++ ("api/instances/I1/ui/x\">").data) := by
    decide
  have harg : c6_once = ((shim_chars "I1" ++ ("<a ").data) ++ ("href=\"/").data)
      ++ ("api/instances/I1/ui/x\">").data := by
    rw [c6_once_eq, hA, ← List.append_assoc, ← List.append_assoc]
  have hVclear : re_sub (attr_pats_dq "I1") (("api/instances/I1/ui/x\">").data)
      = ("api/instances/I1/ui/x\">").data := re_sub_clear _ _ (by decide)
  have hdq : re_sub (attr_pats_dq "I1") c6_once
      = ((shim_chars "I1" ++ ("<a ").data) ++ ("href=\"" ++ ui_base "I1" ++ "/").data)
        ++ ("api/instances/I1/ui/x\">").data := by
    rw [harg]
    rw [re_sub_split (attr_pats_dq "I1") (shim_chars "I1" ++ ("<a ").data)
      (("href=\"/").data) (("href=\"" ++ ui_base "I1" ++ "/").data)
      (("api/instances/I1/ui/x\">").data) (by decide) (by decide), hVclear]
  have hsq : re_sub (attr_pats_sq "I1")
      (((shim_chars "I1" ++ ("<a ").data) ++ ("href=\"" ++ ui_base "I1" ++ "/").data)
        ++ ("api/instances/I1/ui/x\">").data)
      = ((shim_chars "I1" ++ ("<a ").data) ++ ("href=\"" ++ ui_base "I1" ++ "/").data)
        ++ ("api/instances/I1/ui/x\">").data := re_sub_clear _ _ (by decide)
  have hurl : re_sub (url_pats "I1")
      (((shim_chars "I1" ++ ("<a ").data) ++ ("href=\"" ++ ui_base "I1" ++ "/").data)
        ++ ("api/instances/I1/ui/x\">").data)
      = ((shim_chars "I1" ++ ("<a ").data) ++ ("href=\"" ++ ui_base "I1" ++ "/").data)
        ++ ("api/instances/I1/ui/x\">").data := re_sub_clear _ _ (by decide)
  have hcontains : listContains head_chars
      (((shim_chars "I1" ++ ("<a ").data) ++ ("href=\"" ++ ui_base "I1" ++ "/").data)
        ++ ("api/instances/I1/ui/x\">").data) = false := by decide
  show rewrite_html "I1" c6_once = _
  unfold rewrite_html rewrite_links
  rw [hdq, hsq, hurl, inject_phase_absent _ _ hcontains]
  congr 1

/-- C6 counterexample: feeding the transformed document (`c6_once`, already
shim-prefixed and base-path-prefixed) back through the transformation
changes it again — it gains a second copy of the shim (the output starts
with the shim twice in a row, against one occurrence before) and
double-prefixes the already-prefixed link (the doubled base path occurs in
the second output but not the first) — so the rewrite step is not
idempotent. -/
theorem rewrite_not_idempotent_counterexample :
    c6_twice ≠ c6_once
    ∧ (shim_chars "I1" ++ shim_chars "I1").isPrefixOf c6_twice = true
    ∧ countOcc (shim_chars "I1") c6_once = 1
    ∧ listContains ((ui_base "I1").data ++ (ui_base "I1").data) c6_twice = true
    ∧ listContains ((ui_base "I1").data ++ (ui_base "I1").data) c6_once = false := by
  refine ⟨?_, ?_, by decide, ?_, by decide⟩
  · intro h
    have hlen := congrArg List.length h
    rw [c6_twice_eq, c6_once_eq] at hlen
    simp only [List.length_append] at hlen
    have hB : ((ui_base "I1").data).length = 20 := by decide
    omega
  · rw [c6_twice_eq, ← List.append_assoc]
    exact List.isPrefixOf_iff_prefix.mpr (List.prefix_append _ _)
  · rw [c6_twice_eq]
    apply contains_append_right
    apply contains_append_right
    apply contains_append_right
    apply contains_of_isPre
    decide

/-- C6 (amended, pinning the actual behaviour): the rewrite is not
idempotent; because the proxy base path itself begins with `/`, re-applying
the transformation re-matches `href="<base>/…` and inserts the base path a
second time, and re-injects (here: re-prepends) the shim.  On the
representative document `<a href="/x">`, one application yields
shim · `<a href="` · base · `/x">`, and feeding that output back through
yields shim · shim · `<a href="` · base · base · `/x">`. -/
theorem rewrite_double_apply_pinned :
    c6_once = shim_chars "I1" ++ (("<a href=\"").data
      ++ ((ui_base "I1").data ++ ("/x\">").data))
    ∧ c6_twice = shim_chars "I1" ++ (shim_chars "I1" ++ (("<a href=\"").data
      ++ ((ui_base "I1").data ++ ((ui_base "I1").data ++ ("/x\">").data)))) :=
  ⟨c6_once_eq, c6_twice_eq⟩
